import Mathlib

/-!
Shallow embedding of the AgenticDataQuality quality-assessment engine
(`src/tools/data_tools.py`, `src/config/settings.py`) and proofs about it.

Modelling conventions:
* a pandas cell is `Option Value` (`none` = NaN / missing);
* machine floats are idealised as `ℚ`; `round(x, k)` is round-half-even on `ℚ`;
* pandas comparisons against NaN are `false` (as in the library);
* a column has numeric dtype iff every cell is missing or numeric;
* fallible tool bodies (`try/except`) are `Except String _`, erroring exactly
  where the Python would raise (pure-Python zero divisions, TypeError on
  comparing a string cell with a number, KeyError/TypeError in the CDE
  loader); numpy scalar division by zero does not raise but yields NaN,
  modelled by `PyFloat.nan`;
* external oracles (pandas `to_datetime`, `memory_usage`) are explicit
  function parameters, so every theorem quantifies over their behaviour.
-/

namespace ADQ

section

attribute [local semireducible] Rat.mul Rat.inv Rat.add Rat.sub

/-- Scalar cell payloads appearing in a loaded dataframe. -/
inductive Value where
| str (s : String)
| num (q : ℚ)
deriving DecidableEq, Repr

/-- One pandas cell: `none` models NaN/NaT (missing). -/
abbrev Cell := Option Value

/-- One named dataframe column. -/
structure Column where
name : String
cells : List Cell
deriving DecidableEq, Repr

/-- A loaded dataframe: ordered named columns. -/
structure Dataset where
cols : List Column
deriving DecidableEq, Repr

/-- Python `len(df)`: the row count, i.e. the (common) column length. -/
def dsRows (ds : Dataset) : ℕ :=
match ds.cols with
| [] => 0
| c :: _ => c.cells.length

/-- Lookup of `df[name]` guarded by `name in df.columns` (first match). -/
def getCol (ds : Dataset) (name : String) : Option (List Cell) :=
(ds.cols.find? (fun c => c.name == name)).map Column.cells

/-- Python `name in df.columns`. -/
def hasCol (ds : Dataset) (name : String) : Bool :=
(getCol ds name).isSome

/-- Round-half-even to an integer, the semantics of Python `round` (on the
rational idealisation of floats). -/
def rhe (q : ℚ) : ℤ :=
let f := ⌊q⌋
let r := q - f
if r < 1/2 then f
else if 1/2 < r then f + 1
else if 2 ∣ f then f else f + 1

/-- Python `round(q, 4)`. -/
def round4 (q : ℚ) : ℚ := (rhe (q * 10000) : ℚ) / 10000

/-- Python `round(q, 2)`. -/
def round2 (q : ℚ) : ℚ := (rhe (q * 100) : ℚ) / 100

lemma rhe_nonneg {q : ℚ} (h : 0 ≤ q) : 0 ≤ rhe q := by
have hf : (0 : ℤ) ≤ ⌊q⌋ := Int.le_floor.2 (by exact_mod_cast h)
unfold rhe
dsimp only
split
· exact hf
· split
  · omega
  · split
    · exact hf
    · omega

lemma rhe_le_of_le {q : ℚ} {N : ℤ} (h : q ≤ N) : rhe q ≤ N := by
have hf : ⌊q⌋ ≤ N := by
  have := Int.floor_le_floor (α := ℚ) h
  simpa using this
unfold rhe
dsimp only
split
· exact hf
· rename_i h1
  push_neg at h1
  have hlt : ⌊q⌋ < N := by
    rcases lt_or_eq_of_le hf with hlt | hfN
    · exact hlt
    · exfalso
      have hqN : (N : ℚ) ≤ q := by
        have := Int.floor_le q
        rw [hfN] at this
        exact_mod_cast this
      have hq : q = (N : ℚ) := le_antisymm h hqN
      rw [hq] at h1
      simp at h1
      norm_num at h1
  split
  · omega
  · split
    · omega
    · omega

lemma rhe_neg {q : ℚ} (h : q < -(1/2)) : rhe q < 0 := by
have hf : ⌊q⌋ ≤ -1 := by
  have : ⌊q⌋ ≤ ⌊(-(1/2) : ℚ)⌋ := Int.floor_le_floor (le_of_lt h)
  have hhalf : ⌊(-(1/2) : ℚ)⌋ = -1 := by norm_num [Int.floor_eq_iff]
  omega
unfold rhe
dsimp only
split
· omega
· rename_i h1
  push_neg at h1
  have hlt : ⌊q⌋ ≤ -2 := by
    -- q - ⌊q⌋ ≥ 1/2 and q < -1/2 give ⌊q⌋ < -1
    by_contra hc
    push_neg at hc
    have hfe : ⌊q⌋ = -1 := by omega
    rw [hfe] at h1
    have : q < 0 - (1/2 : ℚ) := by linarith
    push_cast at h1
    linarith
  split
  · omega
  · split
    · omega
    · omega

lemma round4_nonneg {q : ℚ} (h : 0 ≤ q) : 0 ≤ round4 q := by
unfold round4
have := rhe_nonneg (q := q * 10000) (by positivity)
positivity

lemma round4_le_one {q : ℚ} (h : q ≤ 1) : round4 q ≤ 1 := by
unfold round4
have h10 : q * 10000 ≤ ((10000 : ℤ) : ℚ) := by push_cast; linarith
have := rhe_le_of_le h10
rw [div_le_one (by norm_num)]
exact_mod_cast this

lemma round4_neg {q : ℚ} (h : q < -(1/20000)) : round4 q < 0 := by
unfold round4
have hq : q * 10000 < -(1/2) := by linarith
have := rhe_neg hq
have hlt : ((rhe (q * 10000) : ℚ)) < 0 := by exact_mod_cast this
exact div_neg_of_neg_of_pos hlt (by norm_num)

/-! ### Profiler (`ProfilerTool._run`)

Per-column completeness/uniqueness/duplicate metrics and the dataset summary.
The type-specific statistic branches (numeric min/max/mean/std, string length
bounds, sample values) only add extra report keys, are fully guarded against
empty input in the source, and are referenced by no claim, so they are not
carried in `ColProfile`.

`non_null / total` in the source divides a numpy `int64` scalar, so at
`total = 0` it evaluates to NaN with a `RuntimeWarning` instead of raising:
a header-only file profiles successfully with `completeness = NaN`. Only the
summary division `sum(...) / len(profile)` is pure-Python and raises
`ZeroDivisionError` (on a column-free dataframe). `PyFloat` carries this
NaN-or-number outcome, with NaN propagating through sums and divisions. -/

/-- Result of a numpy float computation: NaN or a number. -/
inductive PyFloat where
| nan
| num (q : ℚ)
deriving DecidableEq, Repr

/-- NaN-propagating addition on `PyFloat`. -/
def addF : PyFloat → PyFloat → PyFloat
| .num a, .num b => .num (a + b)
| _, _ => .nan

/-- Python `sum` over float values (NaN propagates). -/
def sumF (l : List PyFloat) : PyFloat := l.foldr addF (.num 0)

/-- Division of a float value by a (non-zero) count; NaN propagates. -/
def divF : PyFloat → ℕ → PyFloat
| .num a, n => .num (a / (n : ℚ))
| .nan, _ => .nan

/-- Python `round(x, 4)` on a float value; `round(nan, 4)` is NaN. -/
def roundF4 : PyFloat → PyFloat
| .nan => .nan
| .num q => .num (round4 q)

/-- One entry of the profiler output (`col_profile` dict in the source). -/
structure ColProfile where
column : String
is_cde : Bool
total_rows : ℕ
non_null_count : ℕ
null_count : ℕ
completeness : PyFloat
unique_count : ℕ
uniqueness : ℚ
duplicate_count : ℕ
deriving DecidableEq, Repr

/-- Profiler summary (the `summary` dict in the source); `cde_completeness`
is `none` (JSON `null`) when there are no CDE columns, and may itself be NaN
when a CDE column is empty. -/
structure ProfileSummary where
total_columns : ℕ
cde_columns : ℕ
overall_completeness : PyFloat
cde_completeness : Option PyFloat
columns_with_nulls : ℕ
columns_with_duplicates : ℕ
column_profiles : List ColProfile
deriving DecidableEq, Repr

/-- Python `[f.strip() for f in cde_fields.split(',')] if cde_fields else []`. -/
def parseCdeFields (s : String) : List String :=
if s = "" then [] else (s.splitOn ",").map String.trim

/-- Distinct non-null values, i.e. pandas `nunique()`. -/
def nuniqueCells (cells : List Cell) : ℕ :=
(cells.filterMap id).dedup.length

/-- Profile of a single column. Total: a zero-row column yields
`completeness = NaN` (numpy `0/0`), not an error; `uniqueness` is guarded by
the `non_null > 0` test and never divides by zero. -/
def profileCol (cdeList : List String) (c : Column) : ColProfile :=
let total := c.cells.length
let nonNull := c.cells.countP (fun x => x.isSome)
let uniq := nuniqueCells c.cells
{ column := c.name
  is_cde := c.name ∈ cdeList
  total_rows := total
  non_null_count := nonNull
  null_count := c.cells.countP (fun x => x.isNone)
  completeness :=
    if total = 0 then .nan else .num (round4 ((nonNull : ℚ) / (total : ℚ)))
  unique_count := uniq
  uniqueness := if nonNull > 0 then round4 ((uniq : ℚ) / (nonNull : ℚ)) else 0
  duplicate_count := nonNull - uniq }

/-- Embedding of `ProfilerTool._run`; the pure-Python summary division by
`len(profile)` errors on a column-free dataframe just as the Python does,
and per-column NaN completeness propagates into the summary means. -/
def profileDs (ds : Dataset) (cde_fields : String) : Except String ProfileSummary :=
let cdeList := parseCdeFields cde_fields
let profiles := ds.cols.map (profileCol cdeList)
if profiles.length = 0 then .error "Error profiling data: division by zero"
else
  let cdeProfiles := profiles.filter (fun p => p.is_cde)
  .ok
    { total_columns := profiles.length
      cde_columns := cdeProfiles.length
      overall_completeness :=
        roundF4 (divF (sumF (profiles.map ColProfile.completeness)) profiles.length)
      cde_completeness :=
        if cdeProfiles.length = 0 then none
        else some (roundF4 (divF (sumF (cdeProfiles.map ColProfile.completeness))
          cdeProfiles.length))
      columns_with_nulls := (profiles.filter (fun p => p.null_count > 0)).length
      columns_with_duplicates :=
        (profiles.filter (fun p => p.duplicate_count > 0)).length
      column_profiles := profiles }

/-- Fixed CDE name vocabulary, `CDE_PATTERNS` in `src/config/settings.py`
(its comment: fields matching these patterns are auto-flagged as CDEs). -/
def CDE_PATTERNS : List String :=
["customer_id", "account_id", "transaction_id",
 "ssn", "tax_id", "ein",
 "email", "phone", "address",
 "balance", "amount", "revenue",
 "date_of_birth", "dob",
 "name", "first_name", "last_name"]

/-- Substring search over character lists. -/
def subsearch (p : List Char) : List Char → Bool
| [] => p.isEmpty
| c :: cs => p.isPrefixOf (c :: cs) || subsearch p cs

/-- Case-insensitive substring match of a column name against the fixed CDE
vocabulary, as the spec describes the pattern-based fallback. -/
def cdePatternMatch (col : String) : Bool :=
CDE_PATTERNS.any (fun p => subsearch p.toList (col.toList.map Char.toLower))

/-! ### Validator (`ValidatorTool._run`) -/

/-- Rendering a present cell with `astype(str)` before regex matching. -/
def valueToStr : Value → String
| .str s => s
| .num q => toString q

/-- Split a character list at the first character satisfying `p`; `none` if
no such character occurs. -/
def splitAtFirst (p : Char → Bool) : List Char → Option (List Char × List Char)
| [] => none
| c :: cs =>
  if p c then some ([], cs)
  else
    match splitAtFirst p cs with
    | some (a, b) => some (c :: a, b)
    | none => none

/-- Character class `[a-zA-Z0-9_.+-]` of the email regex local part. -/
def emailLocalChar (c : Char) : Bool :=
c.isAlpha || c.isDigit || c == '_' || c == '.' || c == '+' || c == '-'

/-- Character class `[a-zA-Z0-9-]` of the email regex domain part. -/
def emailDomChar (c : Char) : Bool :=
c.isAlpha || c.isDigit || c == '-'

/-- Character class `[a-zA-Z0-9-.]` of the email regex final part. -/
def emailTldChar (c : Char) : Bool :=
c.isAlpha || c.isDigit || c == '-' || c == '.'

/-- Exact language of the source regex
`^[a-zA-Z0-9_.+-]+@[a-zA-Z0-9-]+\.[a-zA-Z0-9-.]+$` (without the trailing
newline `$` admits): since none of the classes contains `@` the string must
have exactly one `@`, and since the middle class contains no dot the part
after `@` splits at its first dot. -/
def emailCoreChars (l : List Char) : Bool :=
match splitAtFirst (fun c => c == '@') l with
| none => false
| some (pre, post) =>
  !pre.isEmpty && pre.all emailLocalChar &&
  (match splitAtFirst (fun c => c == '.') post with
   | none => false
   | some (dom, tld) =>
     !dom.isEmpty && dom.all emailDomChar && !tld.isEmpty && tld.all emailTldChar)

/-- Python `re.match` of the email pattern: `$` also matches just before one
trailing newline. -/
def emailMatch (s : String) : Bool :=
let l := s.toList
emailCoreChars l ||
  (match l.getLast? with
   | some c => c == '\n' && emailCoreChars l.dropLast
   | none => false)

/-- Exact language of the source regex `^\d{3}-\d{3}-\d{4}$`. -/
def phoneCoreChars (l : List Char) : Bool :=
match l with
| [a, b, c, h1, d, e, f, h2, g, h, i, j] =>
  h1 == '-' && h2 == '-' && [a, b, c, d, e, f, g, h, i, j].all Char.isDigit
| _ => false

/-- Python `re.match` of the phone pattern, with the trailing-newline `$`. -/
def phoneMatch (s : String) : Bool :=
let l := s.toList
phoneCoreChars l ||
  (match l.getLast? with
   | some c => c == '\n' && phoneCoreChars l.dropLast
   | none => false)

/-- One validator issue record. A missing `sample_invalid` dict key in the
Python output is modelled as `none`. -/
structure Issue where
field : String
rule : String
severity : String
invalid_count : ℕ
sample_invalid : Option (List Value)
message : String
deriving DecidableEq, Repr

/-- One entry of `critical_data_elements`, as consumed by the validator:
`rules.get("nullable")` and `rules.get("unique")` (absent key = `none`). -/
structure CDERule where
field : String
nullable : Option Bool
unique : Option Bool
deriving DecidableEq, Repr

/-- Python dict assignment `cde_rules[cde["field"]] = cde`: overwrite in
place if the key exists, else append (dict preserves first-insertion order). -/
def dictInsert (l : List CDERule) (r : CDERule) : List CDERule :=
if l.any (fun x => x.field == r.field) then
  l.map (fun x => if x.field == r.field then r else x)
else l ++ [r]

/-- The `cde_rules` dict built from the configured CDE list. -/
def buildCdeDict (cfg : List CDERule) : List CDERule :=
cfg.foldl dictInsert []

/-- Numeric payload of a cell, `none` for missing or non-numeric cells. -/
def cellNumOpt : Cell → Option ℚ
| some (.num q) => some q
| _ => none

/-- Read a column as pandas would for a numeric comparison: a present string
cell makes the elementwise comparison raise `TypeError` (`none` here);
missing cells stay `none`-valued entries (NaN compares `False`). -/
def colNums? : List Cell → Option (List (Option ℚ))
| [] => some []
| none :: cs => (colNums? cs).map (fun l => none :: l)
| some (.num q) :: cs => (colNums? cs).map (fun l => some q :: l)
| some (.str _) :: _ => none

/-- Issues from the email format rule. -/
def emailIssues (ds : Dataset) : List Issue :=
match getCol ds "email" with
| none => []
| some cells =>
  let bad := cells.filterMap (fun c =>
    match c with
    | some v => if emailMatch (valueToStr v) then none else some v
    | none => none)
  if bad.length > 0 then
    [{ field := "email", rule := "format_validation", severity := "HIGH",
       invalid_count := bad.length, sample_invalid := some (bad.take 3),
       message := toString bad.length ++ " records have invalid email format" }]
  else []

/-- Issues from the phone format rule. -/
def phoneIssues (ds : Dataset) : List Issue :=
match getCol ds "phone" with
| none => []
| some cells =>
  let bad := cells.filterMap (fun c =>
    match c with
    | some v => if phoneMatch (valueToStr v) then none else some v
    | none => none)
  if bad.length > 0 then
    [{ field := "phone", rule := "format_validation", severity := "MEDIUM",
       invalid_count := bad.length, sample_invalid := some (bad.take 3),
       message := toString bad.length ++ " records have invalid phone format" }]
  else []

/-- Issues from the future date-of-birth rule. `parseDOB` is the
`pd.to_datetime(_, errors='coerce')` oracle (days on a linear scale, `none`
for NaT) and `today` is `datetime.now().date()` on the same scale. -/
def dobIssues (ds : Dataset) (parseDOB : Value → Option ℤ) (today : ℤ) : List Issue :=
match getCol ds "date_of_birth" with
| none => []
| some cells =>
  let bad := cells.filterMap (fun c =>
    match c with
    | some v =>
      match parseDOB v with
      | some d => if today < d then some v else none
      | none => none
    | none => none)
  if bad.length > 0 then
    [{ field := "date_of_birth", rule := "future_date", severity := "CRITICAL",
       invalid_count := bad.length,
       sample_invalid := some ((bad.take 3).map (fun v => Value.str (valueToStr v))),
       message := toString bad.length ++ " records have future date of birth" }]
  else []

/-- Issues from the negative account-balance rule; errors if the column holds
a present string cell (pandas `<` would raise `TypeError`). -/
def balanceIssues (ds : Dataset) : Except String (List Issue) :=
match getCol ds "account_balance" with
| none => .ok []
| some cells =>
  match colNums? cells with
  | none => .error "Error validating data: TypeError"
  | some nums =>
    let bad := nums.filterMap (fun o =>
      match o with
      | some q => if q < 0 then some (Value.num q) else none
      | none => none)
    if bad.length > 0 then
      .ok [{ field := "account_balance", rule := "negative_value", severity := "HIGH",
             invalid_count := bad.length, sample_invalid := some (bad.take 3),
             message := toString bad.length ++
               " records have negative account balance" }]
    else .ok []

/-- Issues from the credit-score range rule; errors as `balanceIssues` does. -/
def creditIssues (ds : Dataset) : Except String (List Issue) :=
match getCol ds "credit_score" with
| none => .ok []
| some cells =>
  match colNums? cells with
  | none => .error "Error validating data: TypeError"
  | some nums =>
    let bad := nums.filterMap (fun o =>
      match o with
      | some q => if q < 300 ∨ 850 < q then some (Value.num q) else none
      | none => none)
    if bad.length > 0 then
      .ok [{ field := "credit_score", rule := "range_validation", severity := "HIGH",
             invalid_count := bad.length, sample_invalid := some (bad.take 3),
             message := toString bad.length ++
               " records have credit score outside valid range (300-850)" }]
    else .ok []

/-- Issues from the CDE non-nullable rule; no `sample_invalid` key is set. -/
def cdeNullIssues (ds : Dataset) (cdeDict : List CDERule) : List Issue :=
cdeDict.filterMap (fun r =>
  match getCol ds r.field with
  | none => none
  | some cells =>
    if r.nullable == some false then
      let n := cells.countP (fun c => c.isNone)
      if n > 0 then
        some { field := r.field, rule := "cde_not_nullable", severity := "CRITICAL",
               invalid_count := n, sample_invalid := none,
               message := "CDE field has null values but is marked as non-nullable" }
      else none
    else none)

/-- Issues from the CDE uniqueness rule; no `sample_invalid` key is set.
`dropna().duplicated().sum()` counts all occurrences after the first, i.e.
non-null count minus distinct count. -/
def cdeUniqueIssues (ds : Dataset) (cdeDict : List CDERule) : List Issue :=
cdeDict.filterMap (fun r =>
  match getCol ds r.field with
  | none => none
  | some cells =>
    if r.unique == some true then
      let nonNull := (cells.filterMap id).length
      let d := nonNull - nuniqueCells cells
      if d > 0 then
        some { field := r.field, rule := "cde_uniqueness", severity := "CRITICAL",
               invalid_count := d, sample_invalid := none,
               message := "CDE field has duplicate values but is marked as unique" }
      else none
    else none)

/-- Validator result record (the `result` dict in the source). -/
structure ValidationResult where
total_records : ℕ
total_issues : ℕ
critical_issues : ℕ
high_issues : ℕ
medium_issues : ℕ
validity_score : ℚ
issues : List Issue
deriving DecidableEq, Repr

/-- Sum of `invalid_count` over the emitted issues. -/
def sumInvalid (issues : List Issue) : ℕ :=
(issues.map Issue.invalid_count).sum

/-- Column count used in the validity score: the date-of-birth branch first
assigns the auxiliary `dob_parsed` column, so `len(df.columns)` grows by one
whenever `date_of_birth` is present (and no `dob_parsed` column existed). -/
def colsAfterVal (ds : Dataset) : ℕ :=
ds.cols.length +
  (if hasCol ds "date_of_birth" && !hasCol ds "dob_parsed" then 1 else 0)

/-- Embedding of `ValidatorTool._run`. Errors where the Python would raise:
`TypeError` comparing string cells numerically, `ZeroDivisionError` when
`len(df) * len(df.columns) = 0`. -/
def validate (ds : Dataset) (cfg : List CDERule)
    (parseDOB : Value → Option ℤ) (today : ℤ) : Except String ValidationResult :=
let cdeDict := buildCdeDict cfg
match balanceIssues ds with
| .error e => .error e
| .ok bIss =>
  match creditIssues ds with
  | .error e => .error e
  | .ok cIss =>
    let issues := emailIssues ds ++ phoneIssues ds ++ dobIssues ds parseDOB today ++
      bIss ++ cIss ++ cdeNullIssues ds cdeDict ++ cdeUniqueIssues ds cdeDict
    let rows := dsRows ds
    let ncols := colsAfterVal ds
    if rows * ncols = 0 then .error "Error validating data: division by zero"
    else
      .ok
        { total_records := rows
          total_issues := issues.length
          critical_issues := issues.countP (fun i => i.severity == "CRITICAL")
          high_issues := issues.countP (fun i => i.severity == "HIGH")
          medium_issues := issues.countP (fun i => i.severity == "MEDIUM")
          validity_score :=
            round4 (1 - (sumInvalid issues : ℚ) / ((rows : ℚ) * (ncols : ℚ)))
          issues := issues }

/-! ### Anomaly detector (`AnomalyDetectorTool._run`) -/

/-- Column numeric-dtype test (`select_dtypes(include=['number'])`): every
cell is missing or numeric. -/
def isNumericCol (c : Column) : Bool :=
c.cells.all (fun x =>
  match x with
  | none => true
  | some (.num _) => true
  | some (.str _) => false)

/-- The non-missing numeric values of a column (`df[col].dropna()`). -/
def numVals (c : Column) : List ℚ :=
c.cells.filterMap cellNumOpt

/-- Mean of a rational list (0 on the empty list, which is never used). -/
def qMean (l : List ℚ) : ℚ := l.sum / (l.length : ℚ)

/-- Sum of squared deviations from the mean. -/
def qSS (l : List ℚ) : ℚ := (l.map (fun x => (x - qMean l) ^ 2)).sum

/-- Insert into a sorted rational list. -/
def insertQ (x : ℚ) : List ℚ → List ℚ
| [] => [x]
| y :: ys => if x ≤ y then x :: y :: ys else y :: insertQ x ys

/-- Insertion sort, modelling the sort inside `quantile`. -/
def sortQ (l : List ℚ) : List ℚ := l.foldr insertQ []

/-- Linear-interpolation quantile of a sorted list, pandas
`Series.quantile(q)`: position `h = (n-1)·q`, interpolate between the
neighbouring order statistics. -/
def quantileLin (s : List ℚ) (q : ℚ) : ℚ :=
let n := s.length
let h : ℚ := ((n : ℚ) - 1) * q
let lo : ℕ := (⌊h⌋).toNat
let a := s.getD lo 0
let b := s.getD (lo + 1) a
a + (h - (lo : ℚ)) * (b - a)

/-- Z-score outlier count of `scipy.stats.zscore` (population std, `ddof=0`)
with the strict threshold `abs(z) > 3`. Over the rationals,
`|x-m|/sqrt(SS/n) > 3` is `n·(x-m)² > 9·SS`; when `SS = 0` every z-score is
NaN and every NaN comparison is `False`, which the same inequality (`0 > 0`)
also yields. -/
def outliersZ (vals : List ℚ) : ℕ :=
let m := qMean vals
let ss := qSS vals
vals.countP (fun x => decide ((9 : ℚ) * ss < (vals.length : ℚ) * (x - m) ^ 2))

/-- IQR outlier count: values strictly outside `[Q1 - 1.5·IQR, Q3 + 1.5·IQR]`. -/
def outliersIQR (vals : List ℚ) : ℕ :=
let s := sortQ vals
let q1 := quantileLin s (1/4)
let q3 := quantileLin s (3/4)
let iqr := q3 - q1
vals.countP (fun x => decide (x < q1 - 3/2 * iqr ∨ q3 + 3/2 * iqr < x))

/-- One anomaly report. The reported `std` statistic is the irrational
`col_data.std()` and is referenced by no claim; it is not carried here. -/
structure AnomalyReport where
column : String
outliers_zscore : ℕ
outliers_iqr : ℕ
mean : ℚ
q1 : ℚ
q3 : ℚ
iqr : ℚ
deriving DecidableEq, Repr

/-- Report for one column: `none` for non-numeric columns, for numeric
columns with fewer than 3 non-missing values, and for columns where both
outlier counts are zero. -/
def anomalyReportFor (c : Column) : Option AnomalyReport :=
if isNumericCol c then
  let vals := numVals c
  if vals.length < 3 then none
  else
    let z := outliersZ vals
    let i := outliersIQR vals
    if z > 0 ∨ i > 0 then
      let s := sortQ vals
      let q1 := quantileLin s (1/4)
      let q3 := quantileLin s (3/4)
      some { column := c.name, outliers_zscore := z, outliers_iqr := i,
             mean := round2 (qMean vals), q1 := round2 q1, q3 := round2 q3,
             iqr := round2 (q3 - q1) }
    else none
else none

/-- Anomaly detector result record. -/
structure AnomalyResult where
numeric_columns_analyzed : ℕ
columns_with_anomalies : ℕ
anomalies : List AnomalyReport
deriving DecidableEq, Repr

/-- Embedding of `AnomalyDetectorTool._run` (the body never raises). -/
def detectAnomalies (ds : Dataset) : AnomalyResult :=
let reports := ds.cols.filterMap anomalyReportFor
{ numeric_columns_analyzed := (ds.cols.filter isNumericCol).length
  columns_with_anomalies := reports.length
  anomalies := reports }

/-! ### Dataset loader (`DataLoaderTool._run`) -/

/-- Outcome of handing a path to `pd.read_csv` / `pd.read_json`: either a
parsed dataframe or a raised exception message (malformed file, encoding
error, missing file). -/
inductive ParseOutcome where
| ok (d : Dataset)
| fail (cause : String)

/-- Successful loader payload (the `info` dict in the source). -/
structure DatasetInfo where
file : String
rows : ℕ
columns : ℕ
column_names : List String
sample_rows : List (List (String × Cell))
memory_usage_mb : ℚ
deriving DecidableEq, Repr

/-- Loader outcome: the structured success record, the unsupported-format
message, or the load error carrying the underlying cause. -/
inductive LoadResult where
| info (i : DatasetInfo)
| unsupported
| loadError (cause : String)
deriving DecidableEq, Repr

/-- Python `os.path.basename`. -/
def basename (path : String) : String :=
(path.splitOn "/").getLastD ""

/-- Row `i` of the dataframe as a field-to-value record. -/
def dsRow (ds : Dataset) (i : ℕ) : List (String × Cell) :=
ds.cols.map (fun c => (c.name, c.cells.getD i none))

/-- Python `df.head(3).to_dict(orient='records')`. -/
def sampleRows (ds : Dataset) : List (List (String × Cell)) :=
(List.range (min 3 (dsRows ds))).map (dsRow ds)

/-- Python `path.endswith(suffix)`. -/
def strEndsWith (s suf : String) : Bool :=
suf.toList.isSuffixOf s.toList

/-- Embedding of `DataLoaderTool._run`. `read` is the pandas parser oracle
for the file at a path, `mem` the `df.memory_usage(deep=True)` oracle (MiB,
before rounding). -/
def dataLoad (path : String) (read : String → ParseOutcome)
    (mem : Dataset → ℚ) : LoadResult :=
if strEndsWith path ".csv" ∨ strEndsWith path ".json" then
  match read path with
  | .fail cause => .loadError cause
  | .ok d =>
    .info
      { file := basename path
        rows := dsRows d
        columns := d.cols.length
        column_names := d.cols.map Column.name
        sample_rows := sampleRows d
        memory_usage_mb := round2 (mem d) }
else .unsupported

/-! ### CDE loader (`CDELoaderTool._run`) -/

/-- A parsed JSON document. -/
inductive Json where
| null
| bool (b : Bool)
| num (q : ℚ)
| str (s : String)
| arr (xs : List Json)
| obj (kvs : List (String × Json))

/-- Outcome of `open(config_path)` plus `json.load`: an I/O failure, a JSON
parse failure, or a parsed document. -/
inductive DocOutcome where
| ioError (cause : String)
| parseError (cause : String)
| parsed (j : Json)

/-- First value bound to a key in a JSON object (`config[k]` lookup). -/
def objGet (kvs : List (String × Json)) (k : String) : Option Json :=
(kvs.find? (fun p => p.1 == k)).map Prod.snd

/-- Python `config.get(k, d)`. -/
def objGetD (kvs : List (String × Json)) (k : String) (d : Json) : Json :=
(objGet kvs k).getD d

/-- Successful CDE loader payload (the `cde_summary` dict in the source);
`cde_details` is the raw `critical_data_elements` value, which need not be a
list (the code also passes an empty object or empty string through). -/
structure CdeSummary where
dataset : Json
description : Json
cde_count : ℕ
cde_fields : List Json
thresholds : Json
cde_details : Json

/-- Extraction of `cde["field"]` from each configured element: `none` models
the `KeyError`/`TypeError` raised on an element that is not an object with a
`field` key. -/
def extractFields : List Json → Option (List Json)
| [] => some []
| .obj ekvs :: rest =>
  match objGet ekvs "field" with
  | some v => (extractFields rest).map (fun l => v :: l)
  | none => none
| _ :: _ => none

/-- Embedding of `CDELoaderTool._run`. The Python `except` catches any
raised error and tags it; `config.get` calls mean missing top-level keys do
not raise but fall back to `None`/`[]`/`{}` defaults. The
`critical_data_elements` value is only passed to `len()` and iterated in a
comprehension, so besides lists the empty object and the empty string are
accepted too (`len` is 0, the comprehension iterates zero elements and never
evaluates `cde["field"]`); a non-empty object iterates its string keys and a
non-empty string its characters, and `key["field"]` raises `TypeError`; any
other value makes `len()` raise `TypeError`. -/
def cdeLoad : DocOutcome → Except String CdeSummary
| .ioError cause => .error ("Error loading CDE config: " ++ cause)
| .parseError cause => .error ("Error loading CDE config: " ++ cause)
| .parsed j =>
  match j with
  | .obj kvs =>
    match objGetD kvs "critical_data_elements" (.arr []) with
    | .arr xs =>
      match extractFields xs with
      | some fields =>
        .ok
          { dataset := objGetD kvs "dataset" .null
            description := objGetD kvs "description" .null
            cde_count := xs.length
            cde_fields := fields
            thresholds := objGetD kvs "quality_thresholds" (.obj [])
            cde_details := .arr xs }
      | none => .error "Error loading CDE config: KeyError"
    | .obj [] =>
      .ok
        { dataset := objGetD kvs "dataset" .null
          description := objGetD kvs "description" .null
          cde_count := 0
          cde_fields := []
          thresholds := objGetD kvs "quality_thresholds" (.obj [])
          cde_details := .obj [] }
    | .str s =>
      if s = "" then
        .ok
          { dataset := objGetD kvs "dataset" .null
            description := objGetD kvs "description" .null
            cde_count := 0
            cde_fields := []
            thresholds := objGetD kvs "quality_thresholds" (.obj [])
            cde_details := .str s }
      else .error "Error loading CDE config: TypeError"
    | _ => .error "Error loading CDE config: TypeError"
  | _ => .error "Error loading CDE config: AttributeError"

/-- Well-formedness of a CDE configuration document as the code actually
accepts it: a readable, syntactically valid JSON object whose
`critical_data_elements` value (if present) is a list of objects that each
carry a `field` key, an empty object, or an empty string; every top-level
key is optional. -/
def cfgAccepted : DocOutcome → Bool
| .ioError _ => false
| .parseError _ => false
| .parsed j =>
  match j with
  | .obj kvs =>
    match objGetD kvs "critical_data_elements" (.arr []) with
    | .arr xs => (extractFields xs).isSome
    | .obj [] => true
    | .str s => decide (s = "")
    | _ => false
  | _ => false

/-- Membership test for a top-level key, used to state that a document can
be missing the spec's required keys and still be accepted. -/
def hasKey (kvs : List (String × Json)) (k : String) : Bool :=
(objGet kvs k).isSome

/-! ### Concrete instances used by counterexamples and witnesses -/

/-- Date-parsing oracle returning NaT on every cell. -/
def pdNone : Value → Option ℤ := fun _ => none

/-- Date-parsing oracle for the one ISO date used in concrete runs, the
deterministic behaviour of `pd.to_datetime` on that string. -/
def pdIso : Value → Option ℤ := fun v =>
match v with
| .str "2050-01-01" => some 100
| _ => none

/-- Dataframe with a single future date-of-birth cell. -/
def dsDob : Dataset :=
{ cols := [{ name := "date_of_birth", cells := [some (.str "2050-01-01")] }] }

/-- Dataframe with a single `email` column, for the profiler fallback check. -/
def dsEmailCol : Dataset :=
{ cols := [{ name := "email", cells := [some (.str "a")] }] }

/-- Dataframe with one invalid email cell (validator witness input). -/
def dsBadEmail : Dataset :=
{ cols := [{ name := "email", cells := [some (.str "x")] }] }

/-- Dataframe whose CDE field has one null and one duplicated value. -/
def dsCde : Dataset :=
{ cols := [{ name := "account_id",
             cells := [some (.num 1), some (.num 1), none] }] }

/-- CDE configuration declaring `account_id` non-nullable and unique. -/
def cfgCde : List CDERule :=
[{ field := "account_id", nullable := some false, unique := some true }]

/-- Numeric column whose population and sample z-score outlier counts
differ: nine zeros, `-19` and `2`. -/
def colZ : Column :=
{ name := "x",
  cells := [some (.num 0), some (.num 0), some (.num 0), some (.num 0),
            some (.num 0), some (.num 0), some (.num 0), some (.num 0),
            some (.num 0), some (.num (-19)), some (.num 2)] }

/-- Numeric column with only two non-missing values. -/
def colTwo : Column :=
{ name := "n", cells := [some (.num 5), none, some (.num 5)] }

/-- Numeric column with three identical values (zero variance). -/
def colConst : Column :=
{ name := "k", cells := [some (.num 7), some (.num 7), some (.num 7)] }

/-- Dataframe with one negative and one missing account balance. -/
def dsBalance : Dataset :=
{ cols := [{ name := "account_balance", cells := [some (.num (-5)), none] }] }

/-- Dataframe without a `date_of_birth` column. -/
def dsPlain : Dataset :=
{ cols := [{ name := "a", cells := [some (.num 1)] }] }

/-- Dataframe with one partially null column (profiler witness input). -/
def dsHalf : Dataset :=
{ cols := [{ name := "a", cells := [some (.num 1), none] }] }

/-- CDE document with one configured element (loader witness input). -/
def cdeDocW : List (String × Json) :=
[("dataset", .str "d"),
 ("critical_data_elements", .arr [.obj [("field", .str "id")]])]

/-- Sample-standard-deviation z-score count, following the spec sentence
"standardize the non-missing values (subtract sample mean, divide by sample
standard deviation); count values with absolute standardized value > 3" with
the Bessel-corrected (`ddof = 1`) sample standard deviation; stated for
comparison with the population-std count the code computes. -/
def outliersZsampleSpec (vals : List ℚ) : ℕ :=
vals.countP (fun x =>
  decide ((9 : ℚ) * qSS vals < ((vals.length : ℚ) - 1) * (x - qMean vals) ^ 2))

/-! ### Helper lemmas -/

lemma filterMap_id_length :
    ∀ cells : List Cell, (cells.filterMap id).length = cells.countP (fun x => x.isSome) := by
intro cells
induction cells with
| nil => simp
| cons c cs ih =>
  cases c with
  | none => simpa [List.countP_cons] using ih
  | some v => simpa [List.countP_cons] using ih

lemma nunique_le_nonNull (cells : List Cell) :
    nuniqueCells cells ≤ cells.countP (fun x => x.isSome) := by
rw [← filterMap_id_length]
exact List.Sublist.length_le (List.dedup_sublist _)

lemma colNums_count (p : ℚ → Prop) [DecidablePred p] :
    ∀ (cells : List Cell) (nums : List (Option ℚ)), colNums? cells = some nums →
    (nums.filterMap (fun o =>
      match o with
      | some q => if p q then some (Value.num q) else none
      | none => none)).length
    = (cells.filterMap cellNumOpt).countP (fun q => decide (p q)) := by
intro cells
induction cells with
| nil =>
  intro nums h
  simp [colNums?] at h
  subst h
  simp
| cons c cs ih =>
  intro nums h
  cases c with
  | none =>
    rw [colNums?] at h
    rcases hrest : colNums? cs with _ | l
    · rw [hrest] at h
      simp at h
    · rw [hrest] at h
      simp at h
      subst h
      simpa [cellNumOpt] using ih l hrest
  | some v =>
    cases v with
    | num q =>
      rw [colNums?] at h
      rcases hrest : colNums? cs with _ | l
      · rw [hrest] at h
        simp at h
      · rw [hrest] at h
        simp at h
        subst h
        by_cases hp : p q
        · simp [cellNumOpt, hp, List.countP_cons, ih l hrest]
        · simp [cellNumOpt, hp, List.countP_cons, ih l hrest]
    | str s =>
      rw [colNums?] at h
      simp at h

lemma dobIssues_nil {ds : Dataset} (h : getCol ds "date_of_birth" = none)
    (pd : Value → Option ℤ) (t : ℤ) : dobIssues ds pd t = [] := by
rw [dobIssues, h]

lemma mem_insertQ {x y : ℚ} : ∀ {l : List ℚ}, y ∈ insertQ x l → y = x ∨ y ∈ l := by
intro l
induction l with
| nil =>
  intro h
  simp [insertQ] at h
  exact Or.inl h
| cons z zs ih =>
  intro h
  rw [insertQ] at h
  split at h
  · rcases List.mem_cons.1 h with h0 | h1
    · exact Or.inl h0
    · exact Or.inr h1
  · rcases List.mem_cons.1 h with h0 | h1
    · exact Or.inr (h0 ▸ List.mem_cons_self z zs)
    · rcases ih h1 with h2 | h2
      · exact Or.inl h2
      · exact Or.inr (List.mem_cons_of_mem z h2)

lemma mem_sortQ {y : ℚ} : ∀ {l : List ℚ}, y ∈ sortQ l → y ∈ l := by
intro l
induction l with
| nil => intro h; simp [sortQ] at h
| cons z zs ih =>
  intro h
  rw [sortQ, List.foldr] at h
  rcases mem_insertQ h with h0 | h1
  · exact h0 ▸ List.mem_cons_self z zs
  · exact List.mem_cons_of_mem z (ih h1)

lemma length_insertQ (x : ℚ) : ∀ l : List ℚ, (insertQ x l).length = l.length + 1 := by
intro l
induction l with
| nil => simp [insertQ]
| cons z zs ih =>
  rw [insertQ]
  split
  · simp
  · simp [ih]

lemma length_sortQ : ∀ l : List ℚ, (sortQ l).length = l.length := by
intro l
induction l with
| nil => simp [sortQ]
| cons z zs ih =>
  rw [sortQ, List.foldr, length_insertQ]
  simpa [sortQ] using ih

lemma getD_allEq {v : ℚ} :
    ∀ {l : List ℚ}, (∀ x ∈ l, x = v) → ∀ (i : ℕ) (d : ℚ),
    l.getD i d = v ∨ l.getD i d = d := by
intro l
induction l with
| nil => intro _ i d; right; simp
| cons z zs ih =>
  intro h i d
  cases i with
  | zero => left; simpa using h z (List.mem_cons_self z zs)
  | succ j =>
    have hzs : ∀ x ∈ zs, x = v := fun x hx => h x (List.mem_cons_of_mem z hx)
    simpa using ih hzs j d

lemma getD_allEq_lt {v : ℚ} :
    ∀ {l : List ℚ}, (∀ x ∈ l, x = v) → ∀ {i : ℕ}, i < l.length → ∀ d : ℚ,
    l.getD i d = v := by
intro l
induction l with
| nil => intro _ i hi; simp at hi
| cons z zs ih =>
  intro h i hi d
  cases i with
  | zero => simpa using h z (List.mem_cons_self z zs)
  | succ j =>
    have hzs : ∀ x ∈ zs, x = v := fun x hx => h x (List.mem_cons_of_mem z hx)
    have hj : j < zs.length := by simpa using hi
    simpa using ih hzs hj d

lemma quantileLin_allEq {v : ℚ} {s : List ℚ} (h : ∀ x ∈ s, x = v)
    (hlen : 0 < s.length) {q : ℚ} (hq0 : 0 ≤ q) (hq1 : q ≤ 1) :
    quantileLin s q = v := by
unfold quantileLin
dsimp only
set n := s.length with hn
have hh0 : (0 : ℚ) ≤ ((n : ℚ) - 1) * q := by
  have : (1 : ℚ) ≤ (n : ℚ) := by exact_mod_cast hlen
  have : (0 : ℚ) ≤ (n : ℚ) - 1 := by linarith
  positivity
have hhle : ((n : ℚ) - 1) * q ≤ (n : ℚ) - 1 := by
  have h1 : (0 : ℚ) ≤ (n : ℚ) - 1 := by
    have : (1 : ℚ) ≤ (n : ℚ) := by exact_mod_cast hlen
    linarith
  nlinarith
have hfl : (0 : ℤ) ≤ ⌊((n : ℚ) - 1) * q⌋ := by
  rw [Int.le_floor]
  exact_mod_cast hh0
have hflle : ⌊((n : ℚ) - 1) * q⌋ ≤ (n : ℤ) - 1 := by
  have : ((n : ℚ) - 1) = (((n : ℤ) - 1 : ℤ) : ℚ) := by push_cast; ring
  calc ⌊((n : ℚ) - 1) * q⌋ ≤ ⌊((n : ℚ) - 1)⌋ := Int.floor_le_floor hhle
  _ = (n : ℤ) - 1 := by rw [this, Int.floor_intCast]
have hlo : (⌊((n : ℚ) - 1) * q⌋).toNat < n := by
  have h1 : (1 : ℤ) ≤ (n : ℤ) := by exact_mod_cast hlen
  omega
have ha : s.getD (⌊((n : ℚ) - 1) * q⌋).toNat 0 = v := getD_allEq_lt h hlo 0
rw [ha]
rcases getD_allEq h ((⌊((n : ℚ) - 1) * q⌋).toNat + 1) v with hb | hb
· rw [hb]; ring
· rw [hb]; ring

lemma sum_allEq {v : ℚ} :
    ∀ {l : List ℚ}, (∀ x ∈ l, x = v) → l.sum = (l.length : ℚ) * v := by
intro l
induction l with
| nil => intro _; simp
| cons z zs ih =>
  intro h
  have hz : z = v := h z (List.mem_cons_self z zs)
  have hzs : ∀ x ∈ zs, x = v := fun x hx => h x (List.mem_cons_of_mem z hx)
  rw [List.sum_cons, ih hzs, hz, List.length_cons]
  push_cast
  ring

lemma qMean_allEq {v : ℚ} {l : List ℚ} (h : ∀ x ∈ l, x = v) (hlen : 0 < l.length) :
    qMean l = v := by
unfold qMean
rw [sum_allEq h]
have hne : ((l.length : ℚ)) ≠ 0 := Nat.cast_ne_zero.2 hlen.ne'
field_simp

lemma qSS_allEq {v : ℚ} {l : List ℚ} (h : ∀ x ∈ l, x = v) (hlen : 0 < l.length) :
    qSS l = 0 := by
unfold qSS
have hm := qMean_allEq h hlen
apply List.sum_eq_zero
intro y hy
rcases List.mem_map.1 hy with ⟨x, hx, hxy⟩
rw [← hxy, hm, h x hx]
ring

lemma qSS_nonneg (l : List ℚ) : 0 ≤ qSS l := by
unfold qSS
apply List.sum_nonneg
intro y hy
rcases List.mem_map.1 hy with ⟨x, _, hxy⟩
rw [← hxy]
positivity

lemma emailIssues_shape {ds : Dataset} :
    ∀ i ∈ emailIssues ds, i.rule = "format_validation" ∧ i.severity = "HIGH" ∧
    ∃ l, i.sample_invalid = some l ∧ l.length ≤ 3 := by
intro i hi
rw [emailIssues] at hi
rcases hcol : getCol ds "email" with _ | cells
· rw [hcol] at hi
  simp at hi
· rw [hcol] at hi
  dsimp only at hi
  split at hi
  · rcases List.mem_singleton.1 hi with rfl
    refine ⟨rfl, rfl, _, rfl, ?_⟩
    rw [List.length_take]
    exact min_le_left _ _
  · simp at hi

lemma phoneIssues_shape {ds : Dataset} :
    ∀ i ∈ phoneIssues ds, i.rule = "format_validation" ∧ i.severity = "MEDIUM" ∧
    ∃ l, i.sample_invalid = some l ∧ l.length ≤ 3 := by
intro i hi
rw [phoneIssues] at hi
rcases hcol : getCol ds "phone" with _ | cells
· rw [hcol] at hi
  simp at hi
· rw [hcol] at hi
  dsimp only at hi
  split at hi
  · rcases List.mem_singleton.1 hi with rfl
    refine ⟨rfl, rfl, _, rfl, ?_⟩
    rw [List.length_take]
    exact min_le_left _ _
  · simp at hi

lemma dobIssues_shape {ds : Dataset} {pd : Value → Option ℤ} {t : ℤ} :
    ∀ i ∈ dobIssues ds pd t, i.rule = "future_date" ∧
    ∃ l, i.sample_invalid = some l ∧ l.length ≤ 3 := by
intro i hi
rw [dobIssues] at hi
rcases hcol : getCol ds "date_of_birth" with _ | cells
· rw [hcol] at hi
  simp at hi
· rw [hcol] at hi
  dsimp only at hi
  split at hi
  · rcases List.mem_singleton.1 hi with rfl
    refine ⟨rfl, _, rfl, ?_⟩
    rw [List.length_map, List.length_take]
    exact min_le_left _ _
  · simp at hi

lemma balanceIssues_shape {ds : Dataset} {li : List Issue}
    (h : balanceIssues ds = .ok li) :
    ∀ i ∈ li, i.rule = "negative_value" ∧
    (getCol ds "account_balance").map (fun cells =>
      (cells.filterMap cellNumOpt).countP (fun q => decide (q < 0)))
      = some i.invalid_count ∧
    ∃ l, i.sample_invalid = some l ∧ l.length ≤ 3 := by
intro i hi
rw [balanceIssues] at h
rcases hcol : getCol ds "account_balance" with _ | cells
· rw [hcol] at h
  simp at h
  subst h
  simp at hi
· rw [hcol] at h
  dsimp only at h
  rcases hn : colNums? cells with _ | nums
  · rw [hn] at h
    simp at h
  · rw [hn] at h
    dsimp only at h
    split at h
    · simp at h
      subst h
      rcases List.mem_singleton.1 hi with rfl
      refine ⟨rfl, ?_, _, rfl, ?_⟩
      · simp only [hcol, Option.map_some']
        exact congrArg some (colNums_count (fun q => q < 0) cells nums hn).symm
      · rw [List.length_take]
        exact min_le_left _ _
    · simp at h
      subst h
      simp at hi

lemma creditIssues_shape {ds : Dataset} {li : List Issue}
    (h : creditIssues ds = .ok li) :
    ∀ i ∈ li, i.rule = "range_validation" ∧
    (getCol ds "credit_score").map (fun cells =>
      (cells.filterMap cellNumOpt).countP (fun q => decide (q < 300 ∨ 850 < q)))
      = some i.invalid_count ∧
    ∃ l, i.sample_invalid = some l ∧ l.length ≤ 3 := by
intro i hi
rw [creditIssues] at h
rcases hcol : getCol ds "credit_score" with _ | cells
· rw [hcol] at h
  simp at h
  subst h
  simp at hi
· rw [hcol] at h
  dsimp only at h
  rcases hn : colNums? cells with _ | nums
  · rw [hn] at h
    simp at h
  · rw [hn] at h
    dsimp only at h
    split at h
    · simp at h
      subst h
      rcases List.mem_singleton.1 hi with rfl
      refine ⟨rfl, ?_, _, rfl, ?_⟩
      · simp only [hcol, Option.map_some']
        exact congrArg some
          (colNums_count (fun q => q < 300 ∨ 850 < q) cells nums hn).symm
      · rw [List.length_take]
        exact min_le_left _ _
    · simp at h
      subst h
      simp at hi

lemma cdeNullIssues_shape {ds : Dataset} {d : List CDERule} :
    ∀ i ∈ cdeNullIssues ds d, i.rule = "cde_not_nullable" ∧ i.sample_invalid = none := by
intro i hi
rw [cdeNullIssues] at hi
rcases List.mem_filterMap.1 hi with ⟨r, _, hr⟩
rcases hcol : getCol ds r.field with _ | cells
· rw [hcol] at hr
  simp at hr
· rw [hcol] at hr
  dsimp only at hr
  split at hr
  · split at hr
    · rcases Option.some_inj.1 hr with rfl
      exact ⟨rfl, rfl⟩
    · simp at hr
  · simp at hr

lemma cdeUniqueIssues_shape {ds : Dataset} {d : List CDERule} :
    ∀ i ∈ cdeUniqueIssues ds d, i.rule = "cde_uniqueness" ∧ i.sample_invalid = none := by
intro i hi
rw [cdeUniqueIssues] at hi
rcases List.mem_filterMap.1 hi with ⟨r, _, hr⟩
rcases hcol : getCol ds r.field with _ | cells
· rw [hcol] at hr
  simp at hr
· rw [hcol] at hr
  dsimp only at hr
  split at hr
  · split at hr
    · rcases Option.some_inj.1 hr with rfl
      exact ⟨rfl, rfl⟩
    · simp at hr
  · simp at hr

lemma validate_ok {ds : Dataset} {cfg : List CDERule} {pd : Value → Option ℤ}
    {t : ℤ} {r : ValidationResult} (h : validate ds cfg pd t = .ok r) :
    ∃ bIss cIss, balanceIssues ds = .ok bIss ∧ creditIssues ds = .ok cIss ∧
    r.issues = emailIssues ds ++ phoneIssues ds ++ dobIssues ds pd t ++ bIss ++
      cIss ++ cdeNullIssues ds (buildCdeDict cfg) ++
      cdeUniqueIssues ds (buildCdeDict cfg) ∧
    r.validity_score = round4 (1 - (sumInvalid r.issues : ℚ) /
      ((dsRows ds : ℚ) * (colsAfterVal ds : ℚ))) ∧
    dsRows ds * colsAfterVal ds ≠ 0 := by
rw [validate] at h
rcases hb : balanceIssues ds with e | bIss
· rw [hb] at h
  simp at h
· rw [hb] at h
  dsimp only at h
  rcases hc : creditIssues ds with e | cIss
  · rw [hc] at h
    simp at h
  · rw [hc] at h
    dsimp only at h
    split at h
    · simp at h
    · rename_i hnz
      rcases Except.ok.inj h with rfl
      exact ⟨bIss, cIss, rfl, rfl, rfl, rfl, hnz⟩

lemma zscore_sqrt_iff {n : ℕ} (hn : 0 < n) {ss : ℚ} (hss : 0 ≤ ss) (d : ℚ) :
    ((9 : ℚ) * ss < (n : ℚ) * d ^ 2) ↔
    3 * Real.sqrt ((ss : ℝ) / (n : ℝ)) < |(d : ℝ)| := by
have hnR : (0 : ℝ) < (n : ℝ) := by exact_mod_cast hn
have hssR : (0 : ℝ) ≤ (ss : ℝ) := by exact_mod_cast hss
have hv : (0 : ℝ) ≤ (ss : ℝ) / (n : ℝ) := by positivity
have hsqrt9 : Real.sqrt 9 = 3 := by
  rw [show (9 : ℝ) = 3 ^ 2 by norm_num]
  exact Real.sqrt_sq (by norm_num)
have hkey : ((9 : ℚ) * ss < (n : ℚ) * d ^ 2) ↔
    9 * ((ss : ℝ) / (n : ℝ)) < |(d : ℝ)| ^ 2 := by
  rw [sq_abs, ← mul_div_assoc, div_lt_iff₀ hnR]
  constructor
  · intro h
    have : (9 : ℝ) * (ss : ℝ) < (n : ℝ) * (d : ℝ) ^ 2 := by exact_mod_cast h
    linarith
  · intro h
    have : (9 : ℝ) * (ss : ℝ) < (n : ℝ) * (d : ℝ) ^ 2 := by linarith
    exact_mod_cast this
rw [hkey]
constructor
· intro h
  have hd : 0 < |(d : ℝ)| := by
    rcases lt_or_eq_of_le (abs_nonneg ((d : ℝ))) with h0 | h0
    · exact h0
    · exfalso
      rw [← h0] at h
      nlinarith
  calc 3 * Real.sqrt ((ss : ℝ) / (n : ℝ))
      = Real.sqrt (9 * ((ss : ℝ) / (n : ℝ))) := by
        rw [Real.sqrt_mul (by norm_num) _, hsqrt9]
  _ < Real.sqrt (|(d : ℝ)| ^ 2) := Real.sqrt_lt_sqrt (by positivity) h
  _ = |(d : ℝ)| := Real.sqrt_sq (abs_nonneg _)
· intro h
  have h0 : (0 : ℝ) ≤ 3 * Real.sqrt ((ss : ℝ) / (n : ℝ)) := by positivity
  have hsq : (3 * Real.sqrt ((ss : ℝ) / (n : ℝ))) ^ 2 < |(d : ℝ)| ^ 2 :=
    pow_lt_pow_left₀ h h0 (by norm_num)
  rw [mul_pow, Real.sq_sqrt hv] at hsq
  nlinarith

/-! ### Claim theorems -/

/-- Bounds of a single column profile: numeric completeness lies in `[0,1]`,
NaN completeness happens only on a zero-row column, and uniqueness is always
in `[0,1]` with the zero-denominator guard forcing `0`. -/
lemma profileCol_bounds (cdeList : List String) (c : Column) :
    (∀ q, (profileCol cdeList c).completeness = PyFloat.num q → 0 ≤ q ∧ q ≤ 1) ∧
    ((profileCol cdeList c).completeness = PyFloat.nan →
      (profileCol cdeList c).total_rows = 0) ∧
    0 ≤ (profileCol cdeList c).uniqueness ∧
    (profileCol cdeList c).uniqueness ≤ 1 ∧
    ((profileCol cdeList c).non_null_count = 0 →
      (profileCol cdeList c).uniqueness = 0) := by
have hcomp : (profileCol cdeList c).completeness =
    (if c.cells.length = 0 then PyFloat.nan
     else PyFloat.num (round4 ((c.cells.countP (fun x => x.isSome) : ℚ) /
       (c.cells.length : ℚ)))) := rfl
have htot : (profileCol cdeList c).total_rows = c.cells.length := rfl
have hnn : (profileCol cdeList c).non_null_count =
    c.cells.countP (fun x => x.isSome) := rfl
have huniq : (profileCol cdeList c).uniqueness =
    (if c.cells.countP (fun x => x.isSome) > 0
     then round4 ((nuniqueCells c.cells : ℚ) /
       (c.cells.countP (fun x => x.isSome) : ℚ))
     else 0) := rfl
refine ⟨?_, ?_, ?_, ?_, ?_⟩
· intro q hq
  rw [hcomp] at hq
  split at hq
  · cases hq
  · rename_i h0
    have hpos : 0 < c.cells.length := Nat.pos_of_ne_zero h0
    injection hq with hq2
    subst hq2
    constructor
    · exact round4_nonneg (by positivity)
    · apply round4_le_one
      rw [div_le_one (by exact_mod_cast hpos)]
      exact_mod_cast List.countP_le_length _
· intro hnan
  rw [hcomp] at hnan
  rw [htot]
  split at hnan
  · assumption
  · cases hnan
· rw [huniq]
  split
  · exact round4_nonneg (by positivity)
  · exact le_refl 0
· rw [huniq]
  split
  · rename_i hpos
    apply round4_le_one
    rw [div_le_one (by exact_mod_cast hpos)]
    exact_mod_cast nunique_le_nonNull c.cells
  · exact zero_le_one
· intro h0
  rw [hnn] at h0
  rw [huniq, if_neg]
  omega

/-- Dataframe with one column and zero rows (a header-only file). -/
def dsHeaderOnly : Dataset :=
{ cols := [{ name := "a", cells := [] }] }

/-- C6 counterexample: a header-only file profiles successfully — the
per-column `non_null / total` is numpy `0/0`, which yields NaN with a
warning instead of raising — and the resulting `completeness` is NaN, which
is not a number in `[0,1]`, refuting the claimed invariant. -/
theorem profile_bounds_counterexample :
    (profileDs dsHeaderOnly "").isOk = true ∧
    (profileDs dsHeaderOnly "").toOption.map
      (fun s => s.column_profiles.map ColProfile.completeness)
      = some [PyFloat.nan] :=
⟨rfl, by decide⟩

/-- C6 (amended): for every column of every successfully profiled dataset,
`0 ≤ uniqueness ≤ 1` always and `uniqueness = 0` when there are zero
non-missing values (the zero denominator is guarded); `completeness` lies in
`[0,1]` whenever it is a number, and it is NaN exactly on a zero-row
(header-only) dataset, where it falls outside `[0,1]`. -/
theorem profile_bounds (ds : Dataset) (cf : String) (s : ProfileSummary)
    (h : profileDs ds cf = .ok s) :
    ∀ p ∈ s.column_profiles,
    (∀ q, p.completeness = PyFloat.num q → 0 ≤ q ∧ q ≤ 1) ∧
    (p.completeness = PyFloat.nan → p.total_rows = 0) ∧
    0 ≤ p.uniqueness ∧ p.uniqueness ≤ 1 ∧
    (p.non_null_count = 0 → p.uniqueness = 0) := by
intro p hp
have hcols : s.column_profiles = ds.cols.map (profileCol (parseCdeFields cf)) := by
  rw [profileDs] at h
  dsimp only at h
  split at h
  · simp at h
  · rcases Except.ok.inj h with rfl
    rfl
rw [hcols] at hp
rcases List.mem_map.1 hp with ⟨c, _, rfl⟩
exact profileCol_bounds _ c

/-- Profile the profiler returns for the column of `dsHalf`. -/
def pHalf : ColProfile :=
{ column := "a", is_cde := false, total_rows := 2, non_null_count := 1,
  null_count := 1, completeness := .num (1/2), unique_count := 1,
  uniqueness := 1, duplicate_count := 0 }

/-- Summary the profiler returns on `dsHalf`. -/
def sHalf : ProfileSummary :=
{ total_columns := 1, cde_columns := 0, overall_completeness := .num (1/2),
  cde_completeness := none, columns_with_nulls := 1,
  columns_with_duplicates := 0, column_profiles := [pHalf] }

/-- C6 witness: the amended bounds at the concrete profile of `dsHalf`,
whose completeness is the number `1/2`. -/
theorem profile_bounds_witness :
    (0 ≤ (1/2 : ℚ) ∧ (1/2 : ℚ) ≤ 1) ∧
    0 ≤ pHalf.uniqueness ∧ pHalf.uniqueness ≤ 1 ∧
    (pHalf.non_null_count = 0 → pHalf.uniqueness = 0) :=
⟨(profile_bounds dsHalf "" sHalf (by rfl) pHalf (by decide)).1 (1/2) rfl,
 (profile_bounds dsHalf "" sHalf (by rfl) pHalf (by decide)).2.2.1,
 (profile_bounds dsHalf "" sHalf (by rfl) pHalf (by decide)).2.2.2.1,
 (profile_bounds dsHalf "" sHalf (by rfl) pHalf (by decide)).2.2.2.2⟩

/-- C5: a numeric column with fewer than 3 non-missing values produces no
anomaly report at all, and a column whose non-missing values are all
identical (zero variance) also produces none — the total function
`anomalyReportFor` never raises, matching the NaN semantics of a zero
standard deviation under which every z-comparison is `False`. -/
theorem anomaly_skip (c : Column) :
    ((numVals c).length < 3 → anomalyReportFor c = none) ∧
    (∀ v : ℚ, (∀ x ∈ numVals c, x = v) → anomalyReportFor c = none) := by
constructor
· intro hlen
  rw [anomalyReportFor]
  split
  · rw [if_pos hlen]
  · rfl
· intro v hv
  by_cases hlen : (numVals c).length < 3
  · rw [anomalyReportFor]
    split
    · rw [if_pos hlen]
    · rfl
  · have hpos : 0 < (numVals c).length := by omega
    have hmean := qMean_allEq hv hpos
    have hss := qSS_allEq hv hpos
    have hz : outliersZ (numVals c) = 0 := by
      rw [outliersZ]
      rw [List.countP_eq_zero]
      intro x hx
      rw [hv x hx, hmean, hss]
      simp
    have hsorted : ∀ x ∈ sortQ (numVals c), x = v := fun x hx => hv x (mem_sortQ hx)
    have hslen : 0 < (sortQ (numVals c)).length := by
      rw [length_sortQ]
      exact hpos
    have hq1 : quantileLin (sortQ (numVals c)) (1/4) = v :=
      quantileLin_allEq hsorted hslen (by norm_num) (by norm_num)
    have hq3 : quantileLin (sortQ (numVals c)) (3/4) = v :=
      quantileLin_allEq hsorted hslen (by norm_num) (by norm_num)
    have hi : outliersIQR (numVals c) = 0 := by
      rw [outliersIQR]
      rw [hq1, hq3, List.countP_eq_zero]
      intro x hx
      rw [hv x hx]
      simp only [decide_eq_true_eq]
      push_neg
      constructor <;> linarith
    rw [anomalyReportFor]
    split
    · rw [if_neg hlen, hz, hi, if_neg]
      simp
    · rfl

/-- C5 witness: the theorem applied to a column with two non-missing values
and to a constant three-value column. -/
theorem anomaly_skip_witness :
    anomalyReportFor colTwo = none ∧ anomalyReportFor colConst = none :=
⟨(anomaly_skip colTwo).1 (by decide), (anomaly_skip colConst).2 7 (by decide)⟩

/-- C2: with an empty CDE field set, the profiler marks the `email` column
`is_cde = false` even though `email` matches the fixed CDE vocabulary
case-insensitively — the pattern-matching fallback documented next to
`CDE_PATTERNS` ("fields matching these patterns are auto-flagged as CDEs")
is never applied, because `CDE_PATTERNS` is referenced nowhere. -/
theorem profiler_no_pattern_fallback :
    (profileDs dsEmailCol "").toOption.map
      (fun s => s.column_profiles.map ColProfile.is_cde) = some [false] ∧
    cdePatternMatch "email" = true := by
constructor
· decide
· decide

/-- C7 counterexample: the loader accepts the empty JSON object, which has
none of the keys the spec calls required (`dataset`, `description`,
`critical_data_elements`), contradicting "fail ... exactly when ... missing
a required key". -/
theorem cde_loader_counterexample :
    (cdeLoad (.parsed (.obj []))).isOk = true ∧
    hasKey [] "dataset" = false ∧ hasKey [] "description" = false ∧
    hasKey [] "critical_data_elements" = false :=
⟨rfl, rfl, rfl, rfl⟩

/-- C7 (amended): the loader fails exactly on unreadable input, malformed
JSON, a non-object document, or a `critical_data_elements` value that is
neither a list of objects each carrying a `field` key, nor an empty object,
nor an empty string (the value is only measured with `len()` and iterated,
so empty containers never reach `cde["field"]` and load with zero CDEs);
missing top-level keys fall back to `None`/empty defaults, and on success
the summary carries the dataset label, description, CDE count, field list,
threshold overrides and the raw element value. -/
theorem cde_loader_accepts (doc : DocOutcome) :
    (cdeLoad doc).isOk = cfgAccepted doc ∧
    (∀ kvs xs fields, doc = .parsed (.obj kvs) →
      objGetD kvs "critical_data_elements" (.arr []) = .arr xs →
      extractFields xs = some fields →
      cdeLoad doc = .ok
        { dataset := objGetD kvs "dataset" .null
          description := objGetD kvs "description" .null
          cde_count := xs.length
          cde_fields := fields
          thresholds := objGetD kvs "quality_thresholds" (.obj [])
          cde_details := .arr xs }) ∧
    (∀ kvs, doc = .parsed (.obj kvs) →
      (objGetD kvs "critical_data_elements" (.arr []) = .obj [] ∨
        objGetD kvs "critical_data_elements" (.arr []) = .str "") →
      cdeLoad doc = .ok
        { dataset := objGetD kvs "dataset" .null
          description := objGetD kvs "description" .null
          cde_count := 0
          cde_fields := []
          thresholds := objGetD kvs "quality_thresholds" (.obj [])
          cde_details := objGetD kvs "critical_data_elements" (.arr []) }) := by
refine ⟨?_, ?_, ?_⟩
· cases doc with
  | ioError c => rfl
  | parseError c => rfl
  | parsed j =>
    cases j with
    | null => rfl
    | bool b => rfl
    | num q => rfl
    | str s => rfl
    | arr xs => rfl
    | obj kvs =>
      simp only [cdeLoad, cfgAccepted]
      rcases harr : objGetD kvs "critical_data_elements" (.arr []) with
        _ | b | q | s | xs | ekvs
      · rfl
      · rfl
      · rfl
      · by_cases hs : s = ""
        · subst hs
          rfl
        · dsimp only
          rw [if_neg hs]
          simp [hs]
          rfl
      · rcases hf : extractFields xs with _ | fs
        · simp only [hf]
          rfl
        · simp only [hf]
          rfl
      · rcases ekvs with _ | ⟨hd, tl⟩
        · rfl
        · rfl
· intro kvs xs fields hdoc harr hf
  subst hdoc
  simp only [cdeLoad, harr, hf]
· intro kvs hdoc hdeg
  subst hdoc
  rcases hdeg with hv | hv
  · simp only [cdeLoad, hv]
  · simp only [cdeLoad, hv]
    rfl

/-- C7 witness: the success shape at a concrete one-element document, and
the degenerate acceptance of an empty-object `critical_data_elements`. -/
theorem cde_loader_accepts_witness :
    cdeLoad (.parsed (.obj cdeDocW)) = .ok
      { dataset := objGetD cdeDocW "dataset" .null
        description := objGetD cdeDocW "description" .null
        cde_count := 1
        cde_fields := [.str "id"]
        thresholds := objGetD cdeDocW "quality_thresholds" (.obj [])
        cde_details := .arr [.obj [("field", .str "id")]] } ∧
    cdeLoad (.parsed (.obj [("critical_data_elements", .obj [])])) = .ok
      { dataset := objGetD [("critical_data_elements", .obj [])] "dataset" .null
        description :=
          objGetD [("critical_data_elements", .obj [])] "description" .null
        cde_count := 0
        cde_fields := []
        thresholds :=
          objGetD [("critical_data_elements", .obj [])] "quality_thresholds"
            (.obj [])
        cde_details :=
          objGetD [("critical_data_elements", .obj [])] "critical_data_elements"
            (.arr []) } :=
⟨(cde_loader_accepts (.parsed (.obj cdeDocW))).2.1 cdeDocW
  [.obj [("field", .str "id")]] [.str "id"] rfl rfl rfl,
 (cde_loader_accepts (.parsed (.obj [("critical_data_elements", .obj [])]))).2.2
  [("critical_data_elements", .obj [])] rfl (Or.inl rfl)⟩

/-- C8: the loader is total with a three-way outcome: a non-CSV/JSON
extension yields the unsupported-format result, a parse failure yields a
load error carrying the underlying cause, and a successful parse yields the
structured info record (basename, row count, column count, column names,
first-3-rows sample, rounded memory usage). -/
theorem loader_total (path : String) (read : String → ParseOutcome)
    (mem : Dataset → ℚ) :
    (¬(strEndsWith path ".csv" = true ∨ strEndsWith path ".json" = true) →
      dataLoad path read mem = .unsupported) ∧
    (∀ cause, (strEndsWith path ".csv" = true ∨ strEndsWith path ".json" = true) →
      read path = .fail cause → dataLoad path read mem = .loadError cause) ∧
    (∀ d, (strEndsWith path ".csv" = true ∨ strEndsWith path ".json" = true) →
      read path = .ok d → dataLoad path read mem = .info
        { file := basename path, rows := dsRows d, columns := d.cols.length,
          column_names := d.cols.map Column.name, sample_rows := sampleRows d,
          memory_usage_mb := round2 (mem d) }) := by
refine ⟨?_, ?_, ?_⟩
· intro h
  rw [dataLoad, if_neg h]
· intro cause hext hread
  rw [dataLoad, if_pos hext, hread]
· intro d hext hread
  rw [dataLoad, if_pos hext, hread]

/-- C8 witness: a failing CSV parse propagates its cause, and a `.txt` path
is rejected as unsupported. -/
theorem loader_total_witness :
    dataLoad "sample/data.csv" (fun _ => .fail "boom") (fun _ => 0)
      = .loadError "boom" ∧
    dataLoad "notes.txt" (fun _ => .fail "boom") (fun _ => 0) = .unsupported :=
⟨(loader_total "sample/data.csv" (fun _ => .fail "boom") (fun _ => 0)).2.1
    "boom" (Or.inl (by decide)) rfl,
 (loader_total "notes.txt" (fun _ => .fail "boom") (fun _ => 0)).1 (by decide)⟩


/-- C1 counterexample: on a one-column, one-row dataframe whose only column
is `date_of_birth` with one future date, the claim's formula
`1 - sum/(rows*columns)` over the loaded dataset gives `1 - 1/(1*1) = 0`,
but the validator returns `0.5`: before reading `len(df.columns)` it has
assigned the auxiliary `dob_parsed` column, so the denominator is
`1*2`; the score is also rounded to 4 decimal places. -/
theorem validity_score_counterexample :
    (validate dsDob [] pdIso 0).toOption.map ValidationResult.validity_score
      = some (1/2) ∧
    (validate dsDob [] pdIso 0).toOption.map (fun r => sumInvalid r.issues)
      = some 1 ∧
    dsRows dsDob = 1 ∧ dsDob.cols.length = 1 ∧
    (1 : ℚ) - (1 : ℚ) / ((1 : ℚ) * (1 : ℚ)) = 0 ∧ ((1 : ℚ)/2 ≠ 0) := by
refine ⟨by decide, by decide, by decide, by decide, by norm_num, by norm_num⟩

/-- C1 (amended): on success the validity score equals
`round4 (1 - sum/(rows * C))` where `C` counts the loaded columns plus the
auxiliary `dob_parsed` column the date rule assigns, and it is not clamped:
it is negative whenever the summed violations exceed the cell count
`rows * C` by more than one part in 20000 (the rounding granularity). -/
theorem validity_score_formula (ds : Dataset) (cfg : List CDERule)
    (pd : Value → Option ℤ) (t : ℤ) (r : ValidationResult)
    (h : validate ds cfg pd t = .ok r) :
    r.validity_score = round4 (1 - (sumInvalid r.issues : ℚ) /
      ((dsRows ds : ℚ) * (colsAfterVal ds : ℚ))) ∧
    (20001 * (dsRows ds * colsAfterVal ds) < 20000 * sumInvalid r.issues →
      r.validity_score < 0) := by
rcases validate_ok h with ⟨bIss, cIss, _, _, _, hscore, hnz⟩
refine ⟨hscore, ?_⟩
intro hgt
rw [hscore]
apply round4_neg
have hNpos : 0 < dsRows ds * colsAfterVal ds := Nat.pos_of_ne_zero hnz
have hNQ : (0 : ℚ) < (dsRows ds : ℚ) * (colsAfterVal ds : ℚ) := by
  exact_mod_cast hNpos
have hQ : (20001 : ℚ) * ((dsRows ds : ℚ) * (colsAfterVal ds : ℚ)) <
    20000 * (sumInvalid r.issues : ℚ) := by exact_mod_cast hgt
have hdiv : (1 + 1/20000 : ℚ) < (sumInvalid r.issues : ℚ) /
    ((dsRows ds : ℚ) * (colsAfterVal ds : ℚ)) := by
  rw [lt_div_iff₀ hNQ]
  linarith
linarith

/-- Validator result on `dsBadEmail` (one invalid email in a 1-cell frame). -/
def rBadEmail : ValidationResult :=
{ total_records := 1, total_issues := 1, critical_issues := 0, high_issues := 1,
  medium_issues := 0, validity_score := 0,
  issues := [{ field := "email", rule := "format_validation", severity := "HIGH",
               invalid_count := 1, sample_invalid := some [Value.str "x"],
               message := "1 records have invalid email format" }] }

/-- C1 witness: the amended formula at the concrete run on `dsBadEmail`. -/
theorem validity_score_formula_witness :
    rBadEmail.validity_score = round4 (1 - (sumInvalid rBadEmail.issues : ℚ) /
      ((dsRows dsBadEmail : ℚ) * (colsAfterVal dsBadEmail : ℚ))) ∧
    (20001 * (dsRows dsBadEmail * colsAfterVal dsBadEmail) <
        20000 * sumInvalid rBadEmail.issues →
      rBadEmail.validity_score < 0) :=
validity_score_formula dsBadEmail [] pdNone 0 rBadEmail (by rfl)

/-- C3 counterexample: the validator's `future_date` rule compares against
the run date, so two runs of the engine on the same file and CDE config made
on different dates return different issue lists — here a birth date that is
future on day 99 but not on day 100. -/
theorem determinism_counterexample :
    (validate dsDob [] pdIso 99).toOption.map (fun r => r.issues.length)
      = some 1 ∧
    (validate dsDob [] pdIso 100).toOption.map (fun r => r.issues.length)
      = some 0 ∧
    validate dsDob [] pdIso 99 ≠ validate dsDob [] pdIso 100 := by
refine ⟨by decide, by decide, ?_⟩
intro h
have h1 : (validate dsDob [] pdIso 99).toOption.map (fun r => r.issues.length)
    = some 1 := by decide
have h2 : (validate dsDob [] pdIso 100).toOption.map (fun r => r.issues.length)
    = some 0 := by decide
rw [h] at h1
rw [h2] at h1
exact absurd h1 (by decide)

/-- C3 (amended): the engine is deterministic in its explicit inputs; the
validator's only hidden input is the run date consumed by the `future_date`
rule, so on any dataset without a `date_of_birth` column two validator runs
agree for every pair of run dates and date-parsing behaviours (the profiler
and anomaly detector take no hidden input at all, being plain functions of
the dataset and configuration). -/
theorem determinism_no_dob (ds : Dataset) (cfg : List CDERule)
    (pd₁ : Value → Option ℤ) (t₁ : ℤ) (pd₂ : Value → Option ℤ) (t₂ : ℤ)
    (h : hasCol ds "date_of_birth" = false) :
    validate ds cfg pd₁ t₁ = validate ds cfg pd₂ t₂ := by
have hnone : getCol ds "date_of_birth" = none := by
  rcases hg : getCol ds "date_of_birth" with _ | cells
  · rfl
  · rw [hasCol, hg] at h
    simp at h
simp only [validate, dobIssues_nil hnone]

/-- C3 witness: two runs with different clocks and parsers agree on a
dataframe without a `date_of_birth` column. -/
theorem determinism_no_dob_witness :
    validate dsPlain [] pdIso 5 = validate dsPlain [] pdNone 7 :=
determinism_no_dob dsPlain [] pdIso 5 pdNone 7 (by decide)

/-- C4 counterexample: the `cde_not_nullable` and `cde_uniqueness` issues
emitted on `dsCde` carry no `sample_invalid` key at all (modelled `none`),
contradicting the claim that every issue carries a bounded sample. -/
theorem sample_invalid_counterexample :
    (validate dsCde cfgCde pdNone 0).toOption.map
      (fun r => r.issues.map Issue.sample_invalid) = some [none, none] ∧
    (validate dsCde cfgCde pdNone 0).toOption.map
      (fun r => r.issues.map Issue.rule)
      = some ["cde_not_nullable", "cde_uniqueness"] := by
constructor
· decide
· decide

/-- C4 (amended): every issue from the five fixed rules (the two format
rules, `future_date`, `negative_value`, `range_validation`) carries a
`sample_invalid` list of at most 3 offending values, while the two CDE rules
(`cde_not_nullable`, `cde_uniqueness`) emit issues with no `sample_invalid`
field. -/
theorem sample_invalid_bound (ds : Dataset) (cfg : List CDERule)
    (pd : Value → Option ℤ) (t : ℤ) (r : ValidationResult)
    (h : validate ds cfg pd t = .ok r) :
    ∀ i ∈ r.issues,
    ((i.rule = "cde_not_nullable" ∨ i.rule = "cde_uniqueness") →
      i.sample_invalid = none) ∧
    (i.rule ≠ "cde_not_nullable" → i.rule ≠ "cde_uniqueness" →
      ∃ l, i.sample_invalid = some l ∧ l.length ≤ 3) := by
rcases validate_ok h with ⟨bIss, cIss, hb, hc, hiss, _, _⟩
intro i hi
rw [hiss] at hi
rcases List.mem_append.1 hi with hi6 | hUniq
rotate_left
· rcases cdeUniqueIssues_shape i hUniq with ⟨hr, hs⟩
  exact ⟨fun _ => hs, fun _ hne => absurd hr hne⟩
rcases List.mem_append.1 hi6 with hi5 | hNull
rotate_left
· rcases cdeNullIssues_shape i hNull with ⟨hr, hs⟩
  exact ⟨fun _ => hs, fun hne _ => absurd hr hne⟩
rcases List.mem_append.1 hi5 with hi4 | hCredit
rotate_left
· rcases creditIssues_shape hc i hCredit with ⟨hr, _, hs⟩
  refine ⟨fun hcde => ?_, fun _ _ => hs⟩
  rcases hcde with h1 | h1 <;> rw [hr] at h1 <;> exact absurd h1 (by decide)
rcases List.mem_append.1 hi4 with hi3 | hBal
rotate_left
· rcases balanceIssues_shape hb i hBal with ⟨hr, _, hs⟩
  refine ⟨fun hcde => ?_, fun _ _ => hs⟩
  rcases hcde with h1 | h1 <;> rw [hr] at h1 <;> exact absurd h1 (by decide)
rcases List.mem_append.1 hi3 with hi2 | hDob
rotate_left
· rcases dobIssues_shape i hDob with ⟨hr, hs⟩
  refine ⟨fun hcde => ?_, fun _ _ => hs⟩
  rcases hcde with h1 | h1 <;> rw [hr] at h1 <;> exact absurd h1 (by decide)
rcases List.mem_append.1 hi2 with hEmail | hPhone
· rcases emailIssues_shape i hEmail with ⟨hr, _, hs⟩
  refine ⟨fun hcde => ?_, fun _ _ => hs⟩
  rcases hcde with h1 | h1 <;> rw [hr] at h1 <;> exact absurd h1 (by decide)
· rcases phoneIssues_shape i hPhone with ⟨hr, _, hs⟩
  refine ⟨fun hcde => ?_, fun _ _ => hs⟩
  rcases hcde with h1 | h1 <;> rw [hr] at h1 <;> exact absurd h1 (by decide)

/-- Validator result on `dsCde` under `cfgCde`. -/
def rCde : ValidationResult :=
{ total_records := 3, total_issues := 2, critical_issues := 2, high_issues := 0,
  medium_issues := 0, validity_score := 3333/10000,
  issues := [{ field := "account_id", rule := "cde_not_nullable",
               severity := "CRITICAL", invalid_count := 1, sample_invalid := none,
               message := "CDE field has null values but is marked as non-nullable" },
             { field := "account_id", rule := "cde_uniqueness",
               severity := "CRITICAL", invalid_count := 1, sample_invalid := none,
               message := "CDE field has duplicate values but is marked as unique" }] }

/-- C4 witness: the amended statement applied at the CDE issue of the run on
`dsCde` and at the format issue of the run on `dsBadEmail`. -/
theorem sample_invalid_bound_witness :
    ({ field := "account_id", rule := "cde_not_nullable", severity := "CRITICAL",
       invalid_count := 1, sample_invalid := none,
       message := "CDE field has null values but is marked as non-nullable"
       : Issue }).sample_invalid = none ∧
    (∃ l, ({ field := "email", rule := "format_validation", severity := "HIGH",
             invalid_count := 1, sample_invalid := some [Value.str "x"],
             message := "1 records have invalid email format"
             : Issue }).sample_invalid = some l ∧ l.length ≤ 3) :=
⟨(sample_invalid_bound dsCde cfgCde pdNone 0 rCde (by rfl) _ (by decide)).1
    (Or.inl rfl),
 (sample_invalid_bound dsBadEmail [] pdNone 0 rBadEmail (by rfl) _
    (by decide)).2 (by decide) (by decide)⟩


/-- C9 counterexample: on the column with values
`[0,0,0,0,0,0,0,0,0,-19,2]` the code (population standard deviation,
`ddof=0`, as `scipy.stats.zscore` computes) counts one z-score outlier,
while the claim's sample standard deviation (`ddof=1`) yields a z-score of
about `-2.999` for `-19` and counts none. -/
theorem zscore_counterexample :
    (anomalyReportFor colZ).map AnomalyReport.outliers_zscore = some 1 ∧
    outliersZsampleSpec (numVals colZ) = 0 := by
constructor
· decide
· decide

/-- C9 (amended): the reported z-score outlier count equals the number of
non-missing values whose deviation from the mean exceeds three population
standard deviations (`ddof = 0`): the rational test `9·SS < n·(x-mean)²` is
exactly `|x - mean| > 3·sqrt(SS/n)` over the reals, so the threshold at
`|z| = 3.0` is exclusive — a value attaining it exactly is not counted. -/
theorem zscore_population (c : Column) (rep : AnomalyReport)
    (h : anomalyReportFor c = some rep) :
    rep.outliers_zscore = (numVals c).countP (fun x =>
      decide ((9 : ℚ) * qSS (numVals c) <
        ((numVals c).length : ℚ) * (x - qMean (numVals c)) ^ 2)) ∧
    ∀ x : ℚ,
      ((9 : ℚ) * qSS (numVals c) <
          ((numVals c).length : ℚ) * (x - qMean (numVals c)) ^ 2 ↔
        3 * Real.sqrt ((qSS (numVals c) : ℝ) / ((numVals c).length : ℝ)) <
          |(x : ℝ) - (qMean (numVals c) : ℝ)|) := by
have hlen : ¬ (numVals c).length < 3 := by
  rw [anomalyReportFor] at h
  split at h
  · dsimp only at h
    split at h
    · simp at h
    · assumption
  · simp at h
have hn : 0 < (numVals c).length := by omega
constructor
· rw [anomalyReportFor] at h
  split at h
  · dsimp only at h
    split at h
    · simp at h
    · split at h
      · rcases Option.some_inj.1 h with rfl
        rfl
      · simp at h
  · simp at h
· intro x
  have := zscore_sqrt_iff hn (qSS_nonneg (numVals c)) (x - qMean (numVals c))
  rwa [Rat.cast_sub] at this

/-- Anomaly report the detector returns on `colZ`. -/
def repZ : AnomalyReport :=
{ column := "x", outliers_zscore := 1, outliers_iqr := 2,
  mean := -31/20, q1 := 0, q3 := 0, iqr := 0 }

/-- C9 witness: the amended statement at the concrete column `colZ`, with
the real-valued characterization instantiated at the outlier `-19`. -/
theorem zscore_population_witness :
    repZ.outliers_zscore = (numVals colZ).countP (fun x =>
      decide ((9 : ℚ) * qSS (numVals colZ) <
        ((numVals colZ).length : ℚ) * (x - qMean (numVals colZ)) ^ 2)) ∧
    3 * Real.sqrt ((qSS (numVals colZ) : ℝ) / ((numVals colZ).length : ℝ)) <
      |((-19 : ℚ) : ℝ) - (qMean (numVals colZ) : ℝ)| :=
⟨(zscore_population colZ repZ (by rfl)).1,
 ((zscore_population colZ repZ (by rfl)).2 (-19)).1 (by decide)⟩

/-- C10: rows with a missing `account_balance` or `credit_score` value are
never counted by the `negative_value` or `range_validation` rules: each
emitted issue's `invalid_count` equals a count taken over the present
numeric values only (`filterMap cellNumOpt` drops missing cells), with the
violation tests `value < 0` and `value < 300 ∨ value > 850`. -/
theorem missing_not_counted (ds : Dataset) (cfg : List CDERule)
    (pd : Value → Option ℤ) (t : ℤ) (r : ValidationResult)
    (h : validate ds cfg pd t = .ok r) :
    ∀ i ∈ r.issues,
    (i.rule = "negative_value" →
      (getCol ds "account_balance").map (fun cells =>
        (cells.filterMap cellNumOpt).countP (fun q => decide (q < 0)))
        = some i.invalid_count) ∧
    (i.rule = "range_validation" →
      (getCol ds "credit_score").map (fun cells =>
        (cells.filterMap cellNumOpt).countP (fun q => decide (q < 300 ∨ 850 < q)))
        = some i.invalid_count) := by
rcases validate_ok h with ⟨bIss, cIss, hb, hc, hiss, _, _⟩
intro i hi
rw [hiss] at hi
rcases List.mem_append.1 hi with hi6 | hUniq
rotate_left
· rcases cdeUniqueIssues_shape i hUniq with ⟨hr, _⟩
  constructor <;> intro h1 <;> rw [hr] at h1 <;> exact absurd h1 (by decide)
rcases List.mem_append.1 hi6 with hi5 | hNull
rotate_left
· rcases cdeNullIssues_shape i hNull with ⟨hr, _⟩
  constructor <;> intro h1 <;> rw [hr] at h1 <;> exact absurd h1 (by decide)
rcases List.mem_append.1 hi5 with hi4 | hCredit
rotate_left
· rcases creditIssues_shape hc i hCredit with ⟨hr, hmap, _⟩
  refine ⟨fun h1 => ?_, fun _ => hmap⟩
  rw [hr] at h1
  exact absurd h1 (by decide)
rcases List.mem_append.1 hi4 with hi3 | hBal
rotate_left
· rcases balanceIssues_shape hb i hBal with ⟨hr, hmap, _⟩
  refine ⟨fun _ => hmap, fun h1 => ?_⟩
  rw [hr] at h1
  exact absurd h1 (by decide)
rcases List.mem_append.1 hi3 with hi2 | hDob
rotate_left
· rcases dobIssues_shape i hDob with ⟨hr, _⟩
  constructor <;> intro h1 <;> rw [hr] at h1 <;> exact absurd h1 (by decide)
rcases List.mem_append.1 hi2 with hEmail | hPhone
· rcases emailIssues_shape i hEmail with ⟨hr, _⟩
  constructor <;> intro h1 <;> rw [hr] at h1 <;> exact absurd h1 (by decide)
· rcases phoneIssues_shape i hPhone with ⟨hr, _⟩
  constructor <;> intro h1 <;> rw [hr] at h1 <;> exact absurd h1 (by decide)

/-- Validator result on `dsBalance` (one negative, one missing balance). -/
def rBalance : ValidationResult :=
{ total_records := 2, total_issues := 1, critical_issues := 0, high_issues := 1,
  medium_issues := 0, validity_score := 1/2,
  issues := [{ field := "account_balance", rule := "negative_value",
               severity := "HIGH", invalid_count := 1,
               sample_invalid := some [Value.num (-5)],
               message := "1 records have negative account balance" }] }

/-- C10 witness: on `dsBalance` the emitted `negative_value` issue counts
exactly the one present negative value; the missing cell is not counted. -/
theorem missing_not_counted_witness :
    (getCol dsBalance "account_balance").map (fun cells =>
      (cells.filterMap cellNumOpt).countP (fun q => decide (q < 0)))
      = some (1 : ℕ) :=
(missing_not_counted dsBalance [] pdNone 0 rBalance (by rfl)
  { field := "account_balance", rule := "negative_value", severity := "HIGH",
    invalid_count := 1, sample_invalid := some [Value.num (-5)],
    message := "1 records have negative account balance" } (by decide)).1 rfl

end

end ADQ
